import Mathlib

/-!
Shallow embedding of `pkg/security/probe/process_resolver_bpf.go`
(kanhaiya15/datadog-agent): the process resolver's two-level cache
(userspace entry cache + kernel tables `pid_cookie`, `proc_cache`,
`inode_numlower`), its lazy resolution algorithm and its startup
snapshot protocol.

Kernel tables are modelled as association lists keyed by byte lists
(host-native little-endian encodings, as produced by `byteOrder.PutUint32`
and `byteOrder.PutUint64`).  External collaborators (mount resolver,
container resolver, readlink/stat, the path and time resolvers, the
cache-entry codec, the kernel probe/table registry and the process
enumerator) are oracles collected in an `Env` record.  Every kernel-table
access and probe registration is recorded in an event trace so that
ordering and counting properties ("insert A before B", "unregistered
exactly once", "no kernel reads") can be stated.
-/

set_option autoImplicit false

namespace Probe

/-- Kernel-side observable operations performed by the resolver: table
accesses, probe registration and process enumeration. -/
inductive KEvent where
  | pidCookieGet (key : List Nat)
  | pidCookieSet (key value : List Nat)
  | pidCookieDel (key : List Nat)
  | procCacheGet (key : List Nat)
  | procCacheSet (key value : List Nat)
  | inodeNumlowerGet (key : List Nat)
  | registerKprobe (name : String)
  | unregisterKprobe (name : String)
  | enumerate (pass : Nat)
  deriving DecidableEq, Repr

/-- Modelled from the spec: the error returned by the external mount
resolver's `SyncCache`; `os.IsNotExist` is the only inspection the
resolver performs on it. -/
structure MountErr where
  isNotExist : Bool
  deriving DecidableEq, Repr

/-- Modelled from the spec: the container sub-record of the kernel cache
entry (`entry.ContainerEvent.ID` is the only field the resolver sets). -/
structure ContainerEvent where
  ID : String
  deriving DecidableEq, Repr

/-- Modelled from the spec: the kernel-table value `ProcCacheEntry`
`{ containerID, inode, overlayNumLower, fileEvent, timestampRaw }`.
`FileEvent` is an opaque reference resolved by the external path
resolver; `TimestampRaw` an opaque monotonic-timestamp encoding. -/
structure ProcCacheEntry where
  ContainerEvent : ContainerEvent
  Inode : Nat
  OverlayNumLower : Int
  FileEvent : Nat
  TimestampRaw : Nat
  deriving DecidableEq, Repr

/-- Modelled from the spec: the userspace-cache value
`ProcessResolverEntry { pathnameStr, timestamp }`.  The zero value of
the timestamp is modelled as `0`. -/
structure ProcessResolverEntry where
  PathnameStr : String
  Timestamp : Nat
  deriving DecidableEq, Repr

/-- One element of the process enumerator's result (`process.AllProcesses`):
a pid and the executable path `Exe`. -/
structure ProcInfo where
  Pid : Nat
  Exe : String
  deriving DecidableEq, Repr

/-- A kernel probe descriptor (`ebpf.KProbe`). -/
structure KProbe where
  Name : String
  EntryFunc : String
  deriving DecidableEq, Repr

/-- processSnapshotTables: list of tables used to snapshot. -/
def processSnapshotTables : List String := ["inode_numlower"]

/-- processSnapshotProbes: list of hooks used to snapshot. -/
def processSnapshotProbes : List KProbe :=
  [{ Name := "getattr", EntryFunc := "kprobe/vfs_getattr" }]

/-- Modelled from the spec: the distinguished "not found" sentinel
returned by the external path resolver (`dentryPathKeyNotFound`,
declared elsewhere in the repository). -/
def dentryPathKeyNotFound : String := "error: dentry path not found"

/-- Modelled from the spec: `utils.ProcExePath(pid)`, the name of the
symbolic link to the pid's executable. -/
def procExePath (pid : Nat) : String := "/proc/" ++ toString pid ++ "/exe"

/-- Oracles for every external collaborator consumed by the resolver. -/
structure Env where
  /-- `MountResolver.SyncCache(pid)`: `none` is a nil error. -/
  syncCache : Nat → Option MountErr
  /-- `ContainerResolver.GetContainerID(pid)`: `none` is a failure. -/
  getContainerID : Nat → Option String
  /-- `os.Readlink(path)`: `none` is a failure. -/
  readlink : String → Option String
  /-- `os.Stat(path)` followed by the `*syscall.Stat_t` cast, yielding the
  inode; `none` covers both the stat error and the failed cast. -/
  statInode : String → Option Nat
  /-- `FileEvent.ResolveInode(resolvers)`: the external path resolver. -/
  resolveInode : Nat → String
  /-- `TimeResolver.ResolveMonotonicTimestamp(raw)`. -/
  resolveTimestamp : Nat → Nat
  /-- `ProcCacheEntry.UnmarshalBinary`: `none` is a deserialization error. -/
  unmarshal : List Nat → Option ProcCacheEntry
  /-- `ProcCacheEntry.Bytes()`: the serializer. -/
  bytes : ProcCacheEntry → List Nat
  /-- Whether `procCacheMap.SetP(key, value)` succeeds. -/
  procCacheSetOk : List Nat → List Nat → Bool
  /-- Whether `pidCookieMap.SetP(key, value)` succeeds. -/
  pidCookieSetOk : List Nat → List Nat → Bool
  /-- Whether `probe.RegisterTable(name)` succeeds. -/
  registerTableOk : String → Bool
  /-- Whether `probe.Table(name)` is non-nil. -/
  tableExists : String → Bool
  /-- Whether `Module.RegisterKprobe` succeeds for the named probe. -/
  registerKprobeOk : String → Bool
  /-- `process.AllProcesses()` at the given snapshot pass: `none` is an
  enumeration error. -/
  allProcesses : Nat → Option (List ProcInfo)

/-- The resolver's mutable state: the three kernel tables (byte-list keyed
association lists), the userspace entry cache, the external cookie
generator's counter, and the trace of kernel-side operations. -/
structure ResolverState where
  pidCookie : List (List Nat × List Nat)
  procCache : List (List Nat × List Nat)
  inodeNumlower : List (List Nat × List Nat)
  entryCache : List (Nat × ProcessResolverEntry)
  nextCookie : Nat
  trace : List KEvent
  deriving DecidableEq, Repr

/-- Lookup in an association list (kernel-table `Get`, map indexing). -/
def assocGet {α β : Type} [DecidableEq α] : List (α × β) → α → Option β
  | [], _ => none
  | (k', v) :: rest, k => if k' = k then some v else assocGet rest k

/-- Removal from an association list (kernel-table `Delete`, `delete`). -/
def assocErase {α β : Type} [DecidableEq α] : List (α × β) → α → List (α × β)
  | [], _ => []
  | (k', v) :: rest, k =>
    if k' = k then assocErase rest k else (k', v) :: assocErase rest k

/-- Overwriting insert into an association list (kernel-table `SetP`,
map assignment). -/
def assocSet {α β : Type} [DecidableEq α] (m : List (α × β)) (k : α) (v : β) :
    List (α × β) :=
  (k, v) :: assocErase m k

/-- byteOrder.PutUint32: host-native (little-endian) 4-byte encoding. -/
def putUint32 (n : Nat) : List Nat :=
  [n % 256, n / 256 % 256, n / 65536 % 256, n / 16777216 % 256]

/-- byteOrder.PutUint64: host-native (little-endian) 8-byte encoding. -/
def putUint64 (n : Nat) : List Nat :=
  [n % 256, n / 256 % 256, n / 65536 % 256, n / 16777216 % 256,
   n / 4294967296 % 256, n / 1099511627776 % 256,
   n / 281474976710656 % 256, n / 72057594037927936 % 256]

/-- byteOrder.Uint32: read a little-endian 32-bit value from a byte list. -/
def uint32OfBytes (b : List Nat) : Nat :=
  b.getD 0 0 % 256 + 256 * (b.getD 1 0 % 256) + 65536 * (b.getD 2 0 % 256)
    + 16777216 * (b.getD 3 0 % 256)

/-- int32(n): reinterpret the low 32 bits as a signed value. -/
def int32Of (n : Nat) : Int :=
  if n % 4294967296 < 2147483648 then (n % 4294967296 : Int)
  else (n % 4294967296 : Int) - 4294967296

/-- Append one kernel-side event to the trace. -/
def logEvent (s : ResolverState) (e : KEvent) : ResolverState :=
  { s with trace := s.trace ++ [e] }

/-- The events a computation taking `s` to `s'` appended to the trace. -/
def newEvents (s s' : ResolverState) : List KEvent :=
  s'.trace.drop s.trace.length

/-- AddEntry: add an entry to the local cache (unconditional overwrite). -/
def AddEntry (s : ResolverState) (pid : Nat) (entry : ProcessResolverEntry) :
    ResolverState :=
  { s with entryCache := assocSet s.entryCache pid entry }

/-- DelEntry: removes an entry from the cache and deletes the
`pid_cookie` kernel-table entry. -/
def DelEntry (s : ResolverState) (pid : Nat) : ResolverState :=
  let s1 := { s with entryCache := assocErase s.entryCache pid }
  let s2 := logEvent s1 (KEvent.pidCookieDel (putUint32 pid))
  { s2 with pidCookie := assocErase s2.pidCookie (putUint32 pid) }

/-- resolve: the kernel-table fallback walk
(`pid_cookie` → `proc_cache` → deserialize → path → timestamp),
memoizing the constructed entry on full success. -/
def resolve (env : Env) (s : ResolverState) (pid : Nat) :
    Option ProcessResolverEntry × ResolverState :=
  let pidb := putUint32 pid
  let s1 := logEvent s (KEvent.pidCookieGet pidb)
  match assocGet s.pidCookie pidb with
  | none => (none, s1)
  | some cookieb =>
    let s2 := logEvent s1 (KEvent.procCacheGet cookieb)
    match assocGet s.procCache cookieb with
    | none => (none, s2)
    | some entryb =>
      match env.unmarshal entryb with
      | none => (none, s2)
      | some procCacheEntry =>
        let pathnameStr := env.resolveInode procCacheEntry.FileEvent
        if pathnameStr = dentryPathKeyNotFound then (none, s2)
        else
          let timestamp := env.resolveTimestamp procCacheEntry.TimestampRaw
          let entry : ProcessResolverEntry :=
            { PathnameStr := pathnameStr, Timestamp := timestamp }
          (some entry, AddEntry s2 pid entry)

/-- Resolve: returns the cache entry for the given pid, falling back to
the kernel tables on a userspace-cache miss. -/
def Resolve (env : Env) (s : ResolverState) (pid : Nat) :
    Option ProcessResolverEntry × ResolverState :=
  match assocGet s.entryCache pid with
  | some entry => (some entry, s)
  | none => resolve env s pid

/-- Whether the `SyncCache` error aborts the insertion
(`err != nil && !os.IsNotExist(err)`). -/
def syncAborted (env : Env) (pid : Nat) : Bool :=
  match env.syncCache pid with
  | none => false
  | some err => !err.isNotExist

/-- snapshotProcess: snapshots /proc for the provided pid; returns true
iff it updated the kernel process cache. -/
def snapshotProcess (env : Env) (s : ResolverState) (pid : Nat) :
    Bool × ResolverState :=
  let pidb := putUint32 pid
  let s1 := logEvent s (KEvent.pidCookieGet pidb)
  if (assocGet s.pidCookie pidb).isSome then (false, s1)
  else if syncAborted env pid then (false, s1)
  else
    match env.getContainerID pid with
    | none => (false, s1)
    | some containerID =>
      match env.readlink (procExePath pid) with
      | none => (false, s1)
      | some pathnameStr =>
        let s2 := AddEntry s1 pid { PathnameStr := pathnameStr, Timestamp := 0 }
        match env.statInode (procExePath pid) with
        | none => (false, s2)
        | some ino =>
          let s3 := logEvent s2 (KEvent.inodeNumlowerGet (putUint64 ino))
          match assocGet s.inodeNumlower (putUint64 ino) with
          | none => (false, s3)
          | some numlowerb =>
            let entry : ProcCacheEntry :=
              { ContainerEvent := { ID := containerID },
                Inode := ino,
                OverlayNumLower := int32Of (uint32OfBytes numlowerb),
                FileEvent := 0,
                TimestampRaw := 0 }
            let cookieb := putUint32 s.nextCookie
            let eb := env.bytes entry
            let s4 := logEvent { s3 with nextCookie := s3.nextCookie + 1 }
              (KEvent.procCacheSet cookieb eb)
            if env.procCacheSetOk cookieb eb then
              let s5 := { s4 with procCache := assocSet s4.procCache cookieb eb }
              let s6 := logEvent s5 (KEvent.pidCookieSet pidb cookieb)
              if env.pidCookieSetOk pidb cookieb then
                (true, { s6 with pidCookie := assocSet s6.pidCookie pidb cookieb })
              else (false, s6)
            else (false, s4)

/-- The per-pass loop body of `snapshot`: fold `snapshotProcess` over the
enumerated processes, skipping zero-length `Exe` entries and accumulating
the `cacheModified` flag. -/
def snapshotProcs (env : Env) :
    ResolverState → Bool → List ProcInfo → Bool × ResolverState
  | s, modified, [] => (modified, s)
  | s, modified, proc :: rest =>
    if proc.Exe.length = 0 then snapshotProcs env s modified rest
    else
      let r := snapshotProcess env s (proc.Pid % 4294967296)
      snapshotProcs env r.2 (modified || r.1) rest

/-- snapshot: one pass — enumerate all processes, insert the unseen ones,
and fail with a retryable error if the kernel cache was modified. -/
def snapshot (env : Env) (s : ResolverState) (pass : Nat) :
    Option String × ResolverState :=
  let s1 := logEvent s (KEvent.enumerate pass)
  match env.allProcesses pass with
  | none => (some "couldn't enumerate processes", s1)
  | some processes =>
    let r := snapshotProcs env s1 false processes
    if r.1 then (some "cache modified", r.2) else (none, r.2)

/-- The retry loop of `Snapshot`: up to `fuel` sequential passes, stopping
at the first pass that succeeds. -/
def snapshotLoop (env : Env) :
    ResolverState → Nat → Nat → Option String × ResolverState
  | s, _, 0 => (some "unable to snapshot processes", s)
  | s, pass, fuel + 1 =>
    let r := snapshot env s pass
    match r.1 with
    | none => (none, r.2)
    | some _ => snapshotLoop env r.2 (pass + 1) fuel

/-- The `RegisterTable` loop at the head of `Snapshot`. -/
def registerTables (env : Env) : List String → Option String
  | [] => none
  | t :: rest =>
    if env.registerTableOk t then registerTables env rest
    else some ("couldn't register table " ++ t)

/-- The `RegisterKprobe` loop of `Snapshot`; stops at the first failure. -/
def registerProbes (env : Env) :
    ResolverState → List KProbe → Option String × ResolverState
  | s, [] => (none, s)
  | s, kp :: rest =>
    let s1 := logEvent s (KEvent.registerKprobe kp.Name)
    if env.registerKprobeOk kp.Name then registerProbes env s1 rest
    else (some ("couldn't register kprobe " ++ kp.Name), s1)

/-- The deferred `UnregisterKprobe` loop of `Snapshot` (errors are only
logged, never propagated). -/
def unregisterProbes : ResolverState → List KProbe → ResolverState
  | s, [] => s
  | s, kp :: rest => unregisterProbes (logEvent s (KEvent.unregisterKprobe kp.Name)) rest

/-- Snapshot: register the snapshot table, bind it, activate the transient
probe, run up to 5 snapshot passes, and deactivate the probe on every
exit path past its successful registration. -/
def Snapshot (env : Env) (s : ResolverState) : Option String × ResolverState :=
  match registerTables env processSnapshotTables with
  | some e => (some e, s)
  | none =>
    if env.tableExists "inode_numlower" then
      let r := registerProbes env s processSnapshotProbes
      match r.1 with
      | some e => (some e, r.2)
      | none =>
        let l := snapshotLoop env r.2 0 5
        (l.1, unregisterProbes l.2 processSnapshotProbes)
    else (some "inode_numlower BPF_HASH table doesn't exist", s)

/-- The state after `i` snapshot passes starting from `s` at pass index
`pass` (the iterate of the retry loop's body). -/
def iterPass (env : Env) (s : ResolverState) (pass : Nat) : Nat → ResolverState
  | 0 => s
  | i + 1 => (snapshot env (iterPass env s pass i) (pass + i)).2

/-- Spec-side definition for the refinement claim about `Resolve`'s
fallback: the entry "constructed from the kernel tables" by reading
`pid_cookie[pid]`, then `proc_cache[cookie]`, deserializing, and
resolving the path and timestamp — with no memoization and no state. -/
def kernelTableConstruction (env : Env) (s : ResolverState) (pid : Nat) :
    Option ProcessResolverEntry :=
  match assocGet s.pidCookie (putUint32 pid) with
  | none => none
  | some cookieb =>
    match assocGet s.procCache cookieb with
    | none => none
    | some entryb =>
      match env.unmarshal entryb with
      | none => none
      | some pce =>
        let path := env.resolveInode pce.FileEvent
        if path = dentryPathKeyNotFound then none
        else some { PathnameStr := path,
                    Timestamp := env.resolveTimestamp pce.TimestampRaw }

/-- Predicate for kernel-table access events. -/
def tableEvt : KEvent → Bool
  | KEvent.pidCookieGet _ => true
  | KEvent.pidCookieSet _ _ => true
  | KEvent.pidCookieDel _ => true
  | KEvent.procCacheGet _ => true
  | KEvent.procCacheSet _ _ => true
  | KEvent.inodeNumlowerGet _ => true
  | _ => false

/-- Predicate for process-enumeration events. -/
def isEnumerateEvt : KEvent → Bool
  | KEvent.enumerate _ => true
  | _ => false

/-- Predicate for probe-activation events. -/
def isRegisterEvt : KEvent → Bool
  | KEvent.registerKprobe _ => true
  | _ => false

/-- Predicate for probe-deactivation events. -/
def isUnregisterEvt : KEvent → Bool
  | KEvent.unregisterKprobe _ => true
  | _ => false

/-- A concrete kernel cache entry used to exercise the definitions. -/
def pceW : ProcCacheEntry :=
  { ContainerEvent := { ID := "c1" }, Inode := 3, OverlayNumLower := 2,
    FileEvent := 7, TimestampRaw := 11 }

/-- A concrete environment in which every external collaborator succeeds
for pid 5 (whose executable is `/bin/a` with inode 3). -/
def envW : Env :=
  { syncCache := fun _ => none
    getContainerID := fun _ => some "c1"
    readlink := fun p => if p = "/proc/5/exe" then some "/bin/a" else none
    statInode := fun p => if p = "/proc/5/exe" then some 3 else none
    resolveInode := fun f => if f = 7 then "/bin/a" else dentryPathKeyNotFound
    resolveTimestamp := fun t => t + 100
    unmarshal := fun b => if b = [1] then some pceW else none
    bytes := fun _ => [1]
    procCacheSetOk := fun _ _ => true
    pidCookieSetOk := fun _ _ => true
    registerTableOk := fun _ => true
    tableExists := fun _ => true
    registerKprobeOk := fun _ => true
    allProcesses := fun _ => some [{ Pid := 5, Exe := "/bin/a" }] }

/-- A concrete initial state: empty tables except the `inode_numlower`
entry for inode 3. -/
def sW : ResolverState :=
  { pidCookie := [], procCache := [],
    inodeNumlower := [(putUint64 3, [2, 0, 0, 0])],
    entryCache := [], nextCookie := 42, trace := [] }

/-- A state in which pid 9 is present only in the kernel tables
(`pid_cookie[9] = 1`, `proc_cache[1]` deserializes to `pceW`). -/
def sK : ResolverState :=
  { sW with pidCookie := [(putUint32 9, putUint32 1)],
            procCache := [(putUint32 1, [1])] }

/-- A state whose userspace cache already holds an entry for pid 7. -/
def sHit : ResolverState :=
  { sW with entryCache := [(7, { PathnameStr := "/x", Timestamp := 1 })] }

/-- A state holding kernel and userspace entries for pids 5 and 6. -/
def sDel : ResolverState :=
  { sW with
    pidCookie := [(putUint32 5, putUint32 1), (putUint32 6, putUint32 2)],
    procCache := [(putUint32 1, [1])],
    entryCache := [(5, { PathnameStr := "/bin/a", Timestamp := 0 }),
                   (6, { PathnameStr := "/bin/b", Timestamp := 0 })] }

/-- An environment that simulates continuous process creation: pass `i`
enumerates the fresh pid `i + 1`, so every pass inserts an entry. -/
def envC2 : Env :=
  { envW with
    readlink := fun _ => some "/bin/a"
    statInode := fun _ => some 3
    allProcesses := fun i => some [{ Pid := i + 1, Exe := "/bin/a" }] }

/-- An environment whose mount resolver reports a tolerated
"no such process" error for every pid. -/
def envNE : Env := { envW with syncCache := fun _ => some { isNotExist := true } }

/-- An environment whose mount resolver reports a hard error. -/
def envHard : Env := { envW with syncCache := fun _ => some { isNotExist := false } }

/-- An environment in which `os.Stat` fails after a successful readlink. -/
def envStatFail : Env := { envW with statInode := fun _ => none }

/-- An environment in which the container resolver fails. -/
def envNoCID : Env := { envW with getContainerID := fun _ => none }

@[simp] theorem logEvent_pidCookie (s : ResolverState) (e : KEvent) :
    (logEvent s e).pidCookie = s.pidCookie := rfl

@[simp] theorem logEvent_procCache (s : ResolverState) (e : KEvent) :
    (logEvent s e).procCache = s.procCache := rfl

@[simp] theorem logEvent_inodeNumlower (s : ResolverState) (e : KEvent) :
    (logEvent s e).inodeNumlower = s.inodeNumlower := rfl

@[simp] theorem logEvent_entryCache (s : ResolverState) (e : KEvent) :
    (logEvent s e).entryCache = s.entryCache := rfl

@[simp] theorem logEvent_nextCookie (s : ResolverState) (e : KEvent) :
    (logEvent s e).nextCookie = s.nextCookie := rfl

@[simp] theorem logEvent_trace (s : ResolverState) (e : KEvent) :
    (logEvent s e).trace = s.trace ++ [e] := rfl

@[simp] theorem AddEntry_pidCookie (s : ResolverState) (pid : Nat)
    (e : ProcessResolverEntry) : (AddEntry s pid e).pidCookie = s.pidCookie := rfl

@[simp] theorem AddEntry_procCache (s : ResolverState) (pid : Nat)
    (e : ProcessResolverEntry) : (AddEntry s pid e).procCache = s.procCache := rfl

@[simp] theorem AddEntry_inodeNumlower (s : ResolverState) (pid : Nat)
    (e : ProcessResolverEntry) :
    (AddEntry s pid e).inodeNumlower = s.inodeNumlower := rfl

@[simp] theorem AddEntry_entryCache (s : ResolverState) (pid : Nat)
    (e : ProcessResolverEntry) :
    (AddEntry s pid e).entryCache = assocSet s.entryCache pid e := rfl

@[simp] theorem AddEntry_nextCookie (s : ResolverState) (pid : Nat)
    (e : ProcessResolverEntry) : (AddEntry s pid e).nextCookie = s.nextCookie := rfl

@[simp] theorem AddEntry_trace (s : ResolverState) (pid : Nat)
    (e : ProcessResolverEntry) : (AddEntry s pid e).trace = s.trace := rfl

theorem assocGet_set_self {α β : Type} [DecidableEq α] (m : List (α × β))
    (k : α) (v : β) : assocGet (assocSet m k v) k = some v := by
  simp [assocSet, assocGet]

theorem assocGet_erase_self {α β : Type} [DecidableEq α] (m : List (α × β))
    (k : α) : assocGet (assocErase m k) k = none := by
  induction m with
  | nil => rfl
  | cons kv rest ih =>
    obtain ⟨a, b⟩ := kv
    by_cases hak : a = k
    · rw [assocErase, if_pos hak]; exact ih
    · rw [assocErase, if_neg hak, assocGet, if_neg hak]; exact ih

theorem assocGet_erase_ne {α β : Type} [DecidableEq α] (m : List (α × β))
    {k k' : α} (h : k' ≠ k) : assocGet (assocErase m k) k' = assocGet m k' := by
  induction m with
  | nil => rfl
  | cons kv rest ih =>
    obtain ⟨a, b⟩ := kv
    by_cases hak : a = k
    · rw [assocErase, if_pos hak, assocGet,
        if_neg (fun hc : a = k' => h (hc ▸ hak ▸ rfl))]
      exact ih
    · rw [assocErase, if_neg hak, assocGet, assocGet]
      by_cases hak' : a = k'
      · rw [if_pos hak', if_pos hak']
      · rw [if_neg hak', if_neg hak']; exact ih

theorem assocGet_set_ne {α β : Type} [DecidableEq α] (m : List (α × β))
    {k k' : α} (v : β) (h : k' ≠ k) :
    assocGet (assocSet m k v) k' = assocGet m k' := by
  rw [assocSet, assocGet, if_neg (Ne.symm h)]
  exact assocGet_erase_ne m h

theorem assocErase_of_get_none {α β : Type} [DecidableEq α]
    {m : List (α × β)} {k : α} (h : assocGet m k = none) :
    assocErase m k = m := by
  induction m with
  | nil => rfl
  | cons kv rest ih =>
    obtain ⟨a, b⟩ := kv
    by_cases hak : a = k
    · rw [assocGet, if_pos hak] at h; exact absurd h (by simp)
    · rw [assocGet, if_neg hak] at h
      rw [assocErase, if_neg hak, ih h]

theorem assocSet_length_of_get_none {α β : Type} [DecidableEq α]
    {m : List (α × β)} {k : α} (v : β) (h : assocGet m k = none) :
    (assocSet m k v).length = m.length + 1 := by
  simp [assocSet, assocErase_of_get_none h]

theorem putUint32_inj {a b : Nat} (ha : a < 4294967296) (hb : b < 4294967296)
    (h : putUint32 a = putUint32 b) : a = b := by
  simp only [putUint32, List.cons.injEq, and_true] at h
  omega

theorem drop_length_append {α : Type} (l m : List α) :
    (l ++ m).drop l.length = m := by
  induction l with
  | nil => rfl
  | cons a t ih => simp [ih]

theorem not_table_enum : ∀ e, tableEvt e = true → isEnumerateEvt e = false := by
  intro e he; cases e <;> simp_all [tableEvt, isEnumerateEvt]

theorem not_table_reg : ∀ e, tableEvt e = true → isRegisterEvt e = false := by
  intro e he; cases e <;> simp_all [tableEvt, isRegisterEvt]

theorem not_table_unreg : ∀ e, tableEvt e = true → isUnregisterEvt e = false := by
  intro e he; cases e <;> simp_all [tableEvt, isUnregisterEvt]

theorem snapshotProcess_countP (env : Env) (s : ResolverState) (pid : Nat)
    (p : KEvent → Bool) (hp : ∀ e, tableEvt e = true → p e = false) :
    ((snapshotProcess env s pid).2.trace).countP p = s.trace.countP p := by
  have h1 : ∀ k, p (KEvent.pidCookieGet k) = false := fun k => hp _ rfl
  have h2 : ∀ k v, p (KEvent.pidCookieSet k v) = false := fun k v => hp _ rfl
  have h3 : ∀ k v, p (KEvent.procCacheSet k v) = false := fun k v => hp _ rfl
  have h4 : ∀ k, p (KEvent.inodeNumlowerGet k) = false := fun k => hp _ rfl
  simp only [snapshotProcess]
  repeat' split
  all_goals simp [logEvent, AddEntry, List.countP_append, List.countP_cons, h1, h2, h3, h4]

theorem snapshotProcs_countP (env : Env) (p : KEvent → Bool)
    (hp : ∀ e, tableEvt e = true → p e = false) :
    ∀ procs (s : ResolverState) (modified : Bool),
      ((snapshotProcs env s modified procs).2.trace).countP p = s.trace.countP p := by
  intro procs
  induction procs with
  | nil => intro s m; rfl
  | cons proc rest ih =>
    intro s m
    simp only [snapshotProcs]
    by_cases h : proc.Exe.length = 0
    · rw [if_pos h]; exact ih s m
    · rw [if_neg h, ih, snapshotProcess_countP env s _ p hp]

theorem snapshot_countP (env : Env) (s : ResolverState) (pass : Nat)
    (p : KEvent → Bool) (hp : ∀ e, tableEvt e = true → p e = false) :
    ((snapshot env s pass).2.trace).countP p
      = s.trace.countP p + (if p (KEvent.enumerate pass) then 1 else 0) := by
  simp only [snapshot]
  cases h : env.allProcesses pass with
  | none => simp [h, logEvent, List.countP_append, List.countP_cons]
  | some procs =>
    simp only [h, apply_ite Prod.snd, ite_self]
    rw [snapshotProcs_countP env p hp]
    simp [logEvent, List.countP_append, List.countP_cons]

theorem snapshotLoop_countP (env : Env) (p : KEvent → Bool)
    (hp : ∀ e, tableEvt e = true → p e = false)
    (hpe : ∀ k, p (KEvent.enumerate k) = false) :
    ∀ (fuel : Nat) (s : ResolverState) (pass : Nat),
      ((snapshotLoop env s pass fuel).2.trace).countP p = s.trace.countP p := by
  intro fuel
  induction fuel with
  | zero => intro s pass; rfl
  | succ f ih =>
    intro s pass
    simp only [snapshotLoop]
    cases h : (snapshot env s pass).1 with
    | none =>
      simp only [h]
      rw [snapshot_countP env s pass p hp]
      simp [hpe]
    | some e =>
      simp only [h]
      rw [ih, snapshot_countP env s pass p hp]
      simp [hpe]

theorem iterPass_countEnum (env : Env) (s : ResolverState) (pass : Nat) :
    ∀ i, ((iterPass env s pass i).trace).countP isEnumerateEvt
      = s.trace.countP isEnumerateEvt + i := by
  intro i
  induction i with
  | zero => rfl
  | succ j ih =>
    simp only [iterPass]
    rw [snapshot_countP _ _ _ _ not_table_enum, ih]
    simp [isEnumerateEvt]
    omega

theorem iterPass_shift (env : Env) (s : ResolverState) (pass : Nat) :
    ∀ i, iterPass env (snapshot env s pass).2 (pass + 1) i = iterPass env s pass (i + 1) := by
  intro i
  induction i with
  | zero => simp [iterPass]
  | succ j ih =>
    simp only [iterPass]
    rw [ih, show pass + 1 + j = pass + (j + 1) by omega]
    simp only [iterPass]

theorem snapshotLoop_all_fail (env : Env) :
    ∀ (fuel : Nat) (s : ResolverState) (pass : Nat),
      (∀ i, i < fuel → (snapshot env (iterPass env s pass i) (pass + i)).1 ≠ none) →
      snapshotLoop env s pass fuel
        = (some "unable to snapshot processes", iterPass env s pass fuel) := by
  intro fuel
  induction fuel with
  | zero => intro s pass _; rfl
  | succ f ih =>
    intro s pass h
    have h0 : (snapshot env s pass).1 ≠ none := by
      have := h 0 (Nat.succ_pos f)
      simpa [iterPass] using this
    simp only [snapshotLoop]
    cases hr : (snapshot env s pass).1 with
    | none => exact absurd hr h0
    | some e =>
      simp only [hr]
      rw [ih ((snapshot env s pass).2) (pass + 1) ?hyp]
      · rw [iterPass_shift]
      case hyp =>
        intro i hi
        rw [iterPass_shift]
        have hh := h (i + 1) (by omega)
        rw [show pass + (i + 1) = pass + 1 + i by omega] at hh
        exact hh

theorem snapshotLoop_first_success (env : Env) :
    ∀ (fuel : Nat) (s : ResolverState) (pass : Nat) (j : Nat), j < fuel →
      (∀ i, i < j → (snapshot env (iterPass env s pass i) (pass + i)).1 ≠ none) →
      (snapshot env (iterPass env s pass j) (pass + j)).1 = none →
      snapshotLoop env s pass fuel = (none, iterPass env s pass (j + 1)) := by
  intro fuel
  induction fuel with
  | zero => intro s pass j hj _ _; exact absurd hj (Nat.not_lt_zero j)
  | succ f ih =>
    intro s pass j hj hfail hsucc
    cases j with
    | zero =>
      simp only [iterPass, Nat.add_zero] at hsucc
      simp only [snapshotLoop]
      cases hr : (snapshot env s pass).1 with
      | none => simp [hr, iterPass]
      | some e => rw [hr] at hsucc; exact absurd hsucc (by simp)
    | succ j' =>
      have h0 : (snapshot env s pass).1 ≠ none := by
        have := hfail 0 (Nat.succ_pos j')
        simpa [iterPass] using this
      simp only [snapshotLoop]
      cases hr : (snapshot env s pass).1 with
      | none => exact absurd hr h0
      | some e =>
        simp only [hr]
        rw [ih ((snapshot env s pass).2) (pass + 1) j' (by omega) ?hf ?hs]
        · rw [iterPass_shift]
        case hf =>
          intro i hi
          rw [iterPass_shift]
          have hh := hfail (i + 1) (by omega)
          rw [show pass + (i + 1) = pass + 1 + i by omega] at hh
          exact hh
        case hs =>
          rw [iterPass_shift]
          rw [show pass + (j' + 1) = pass + 1 + j' by omega] at hsucc
          exact hsucc

theorem snapshotProcess_pidCookie (env : Env) (s : ResolverState) (pid : Nat) :
    ((snapshotProcess env s pid).1 = false →
      (snapshotProcess env s pid).2.pidCookie = s.pidCookie)
    ∧ ((snapshotProcess env s pid).1 = true →
      (snapshotProcess env s pid).2.pidCookie.length = s.pidCookie.length + 1) := by
  simp only [snapshotProcess]
  repeat' split
  all_goals refine ⟨fun h => ?_, fun h => ?_⟩
  all_goals simp_all [logEvent, AddEntry]
  rename_i hnone _ _ _ _ _ _ _
  exact assocSet_length_of_get_none _ hnone

theorem snapshotProcs_flag (env : Env) :
    ∀ procs (s : ResolverState), (snapshotProcs env s true procs).1 = true := by
  intro procs
  induction procs with
  | nil => intro s; rfl
  | cons proc rest ih =>
    intro s
    simp only [snapshotProcs]
    by_cases h : proc.Exe.length = 0
    · rw [if_pos h]; exact ih s
    · rw [if_neg h]; simp only [Bool.true_or]; exact ih _

theorem snapshotProcs_false (env : Env) :
    ∀ procs (s : ResolverState) (m : Bool),
      (snapshotProcs env s m procs).1 = false →
      (snapshotProcs env s m procs).2.pidCookie = s.pidCookie := by
  intro procs
  induction procs with
  | nil => intro s m _; rfl
  | cons proc rest ih =>
    intro s m h
    simp only [snapshotProcs] at *
    by_cases he : proc.Exe.length = 0
    · rw [if_pos he] at *; exact ih s m h
    · rw [if_neg he] at *
      by_cases hm : (m || (snapshotProcess env s (proc.Pid % 4294967296)).1) = true
      · rw [hm] at h
        rw [snapshotProcs_flag env rest _] at h
        exact absurd h (by simp)
      · have hm' := Bool.not_eq_true _ |>.mp hm
        have hins : (snapshotProcess env s (proc.Pid % 4294967296)).1 = false := by
          rcases Bool.or_eq_false_iff.mp hm' with ⟨_, h2⟩; exact h2
        rw [hm'] at h
        rw [hm', ih _ false h, (snapshotProcess_pidCookie env s _).1 hins]

theorem snapshotProcs_mono (env : Env) :
    ∀ procs (s : ResolverState) (m : Bool),
      s.pidCookie.length ≤ (snapshotProcs env s m procs).2.pidCookie.length := by
  intro procs
  induction procs with
  | nil => intro s m; exact Nat.le_refl _
  | cons proc rest ih =>
    intro s m
    simp only [snapshotProcs]
    by_cases he : proc.Exe.length = 0
    · rw [if_pos he]; exact ih s m
    · rw [if_neg he]
      refine Nat.le_trans ?_ (ih _ _)
      cases hb : (snapshotProcess env s (proc.Pid % 4294967296)).1 with
      | false => rw [(snapshotProcess_pidCookie env s _).1 hb]
      | true => rw [(snapshotProcess_pidCookie env s _).2 hb]; omega

theorem snapshotProcs_true (env : Env) :
    ∀ procs (s : ResolverState),
      (snapshotProcs env s false procs).1 = true →
      s.pidCookie.length < (snapshotProcs env s false procs).2.pidCookie.length := by
  intro procs
  induction procs with
  | nil => intro s h; exact absurd h (by simp [snapshotProcs])
  | cons proc rest ih =>
    intro s h
    simp only [snapshotProcs] at *
    by_cases he : proc.Exe.length = 0
    · rw [if_pos he] at *; exact ih s h
    · rw [if_neg he] at *
      simp only [Bool.false_or] at h
      cases hb : (snapshotProcess env s (proc.Pid % 4294967296)).1 with
      | false =>
        rw [hb] at h
        simp only [hb, Bool.false_or]
        have hlt := ih _ h
        rwa [(snapshotProcess_pidCookie env s _).1 hb] at hlt
      | true =>
        rw [hb] at h
        have h1 := (snapshotProcess_pidCookie env s _).2 hb
        have h2 := snapshotProcs_mono env rest (snapshotProcess env s (proc.Pid % 4294967296)).2 true
        simp only [hb, Bool.false_or]
        omega

/-- C5: for every pid that already has a `pid_cookie` entry, the per-process
snapshot insertion returns false immediately, performing no kernel-table
writes and no other resolver step (the state changes only by the trace of
the one `pid_cookie` read), and calling it twice behaves the same way both
times. -/
theorem snapshotProcess_idempotent (env : Env) (s : ResolverState) (pid : Nat)
    (c : List Nat) (h : assocGet s.pidCookie (putUint32 pid) = some c) :
    snapshotProcess env s pid
      = (false, logEvent s (KEvent.pidCookieGet (putUint32 pid)))
    ∧ snapshotProcess env (snapshotProcess env s pid).2 pid
      = (false, logEvent (snapshotProcess env s pid).2
          (KEvent.pidCookieGet (putUint32 pid))) := by
  have h1 : snapshotProcess env s pid
      = (false, logEvent s (KEvent.pidCookieGet (putUint32 pid))) := by
    simp [snapshotProcess, h]
  refine ⟨h1, ?_⟩
  rw [h1]
  simp [snapshotProcess, h]

/-- C8: `DelEntry(pid)` removes the pid's userspace cache entry and the
`pid_cookie[pid]` kernel entry, leaves `proc_cache`, `inode_numlower` and
all other pids' entries (userspace and `pid_cookie`) unchanged, and a
subsequent kernel-fallback-only `resolve(pid)` returns absent. -/
theorem DelEntry_frame (s : ResolverState) (pid : Nat) :
    assocGet (DelEntry s pid).entryCache pid = none
    ∧ assocGet (DelEntry s pid).pidCookie (putUint32 pid) = none
    ∧ (DelEntry s pid).procCache = s.procCache
    ∧ (DelEntry s pid).inodeNumlower = s.inodeNumlower
    ∧ (∀ q, q ≠ pid → assocGet (DelEntry s pid).entryCache q = assocGet s.entryCache q)
    ∧ (∀ q, pid < 4294967296 → q < 4294967296 → q ≠ pid →
        assocGet (DelEntry s pid).pidCookie (putUint32 q)
          = assocGet s.pidCookie (putUint32 q))
    ∧ (∀ env, (resolve env (DelEntry s pid) pid).1 = none) := by
  have hpc : (DelEntry s pid).pidCookie = assocErase s.pidCookie (putUint32 pid) := rfl
  have hec : (DelEntry s pid).entryCache = assocErase s.entryCache pid := rfl
  refine ⟨?_, ?_, rfl, rfl, ?_, ?_, ?_⟩
  · rw [hec]; exact assocGet_erase_self _ _
  · rw [hpc]; exact assocGet_erase_self _ _
  · intro q hq; rw [hec]; exact assocGet_erase_ne _ hq
  · intro q hpid hq hqpid
    have hne : putUint32 q ≠ putUint32 pid :=
      fun hc => hqpid (putUint32_inj hq hpid hc)
    rw [hpc]; exact assocGet_erase_ne _ hne
  · intro env
    have h2 : assocGet (DelEntry s pid).pidCookie (putUint32 pid) = none := by
      rw [hpc]; exact assocGet_erase_self _ _
    simp [resolve, h2]

/-- C6: as soon as the executable symlink is successfully read during a
per-process snapshot insertion (idempotency check missed, mount sync
tolerated, container ID resolved, readlink succeeded), the provisional
`ProcessResolverEntry` with that path is in the userspace cache of the
final state — regardless of whether any later step fails. -/
theorem snapshotProcess_provisional_entry (env : Env) (s : ResolverState)
    (pid : Nat) (path : String)
    (hg : assocGet s.pidCookie (putUint32 pid) = none)
    (hs : syncAborted env pid = false)
    (hc : env.getContainerID pid ≠ none)
    (hr : env.readlink (procExePath pid) = some path) :
    assocGet (snapshotProcess env s pid).2.entryCache pid
      = some { PathnameStr := path, Timestamp := 0 } := by
  obtain ⟨cid, hcid⟩ := Option.ne_none_iff_exists'.mp hc
  simp only [snapshotProcess, hg, hs, hcid, hr]
  repeat' split
  all_goals simp_all [AddEntry, logEvent, assocGet_set_self]



/-- C9: a "no such process" error from the mount resolver's `SyncCache` is
tolerated — the insertion behaves exactly as if the sync had succeeded;
any other `SyncCache` error aborts the pid's insertion with result false
and no kernel-table write beyond the one `pid_cookie` read; and the
snapshot pass then simply continues with the remaining pids. -/
theorem snapshotProcess_mount_sync_tolerance :
    (∀ (env : Env) (s : ResolverState) (pid : Nat) (err : MountErr),
      env.syncCache pid = some err → err.isNotExist = true →
      snapshotProcess env s pid
        = snapshotProcess
            { env with syncCache := fun q => if q = pid then none else env.syncCache q }
            s pid)
    ∧ (∀ (env : Env) (s : ResolverState) (pid : Nat) (err : MountErr),
      assocGet s.pidCookie (putUint32 pid) = none →
      env.syncCache pid = some err → err.isNotExist = false →
      snapshotProcess env s pid
        = (false, logEvent s (KEvent.pidCookieGet (putUint32 pid))))
    ∧ (∀ (env : Env) (s : ResolverState) (m : Bool) (proc : ProcInfo)
        (rest : List ProcInfo) (err : MountErr),
      proc.Exe.length ≠ 0 →
      assocGet s.pidCookie (putUint32 (proc.Pid % 4294967296)) = none →
      env.syncCache (proc.Pid % 4294967296) = some err → err.isNotExist = false →
      snapshotProcs env s m (proc :: rest)
        = snapshotProcs env
            (logEvent s (KEvent.pidCookieGet (putUint32 (proc.Pid % 4294967296))))
            m rest) := by
  have habort : ∀ (env : Env) (s : ResolverState) (pid : Nat) (err : MountErr),
      assocGet s.pidCookie (putUint32 pid) = none →
      env.syncCache pid = some err → err.isNotExist = false →
      snapshotProcess env s pid
        = (false, logEvent s (KEvent.pidCookieGet (putUint32 pid))) := by
    intro env s pid err hg hs hni
    simp [snapshotProcess, syncAborted, hg, hs, hni]
  refine ⟨?_, habort, ?_⟩
  · intro env s pid err hs hni
    simp [snapshotProcess, syncAborted, hs, hni]
  · intro env s m proc rest err he hg hs hni
    simp only [snapshotProcs]
    rw [if_neg he, habort env s _ err hg hs hni]
    simp

/-- C10: when the per-process snapshot insertion aborts at the idempotency
check, the mount-sync failure, the container-ID failure or the
executable-readlink failure, it returns false and the userspace entry
cache is completely unchanged; conversely any change to the entry cache
is exactly the single provisional write performed after a successful
readlink. -/
theorem snapshotProcess_entryCache_frame (env : Env) (s : ResolverState) (pid : Nat) :
    (((assocGet s.pidCookie (putUint32 pid)).isSome = true
        ∨ (∃ err, env.syncCache pid = some err ∧ err.isNotExist = false)
        ∨ env.getContainerID pid = none
        ∨ env.readlink (procExePath pid) = none) →
      (snapshotProcess env s pid).1 = false
      ∧ (snapshotProcess env s pid).2.entryCache = s.entryCache)
    ∧ ((snapshotProcess env s pid).2.entryCache ≠ s.entryCache →
      ∃ path, env.readlink (procExePath pid) = some path
        ∧ (snapshotProcess env s pid).2.entryCache
            = assocSet s.entryCache pid { PathnameStr := path, Timestamp := 0 }) := by
  constructor
  · intro hd
    simp only [snapshotProcess]
    repeat' split
    all_goals first
      | exact ⟨rfl, rfl⟩
      | (exfalso
         rcases hd with hd | ⟨err, hserr, hni⟩ | hd | hd <;> simp_all [syncAborted])
  · intro hne
    revert hne
    simp only [snapshotProcess]
    repeat' split
    all_goals intro hne
    all_goals first
      | exact absurd rfl hne
      | exact ⟨_, by assumption, rfl⟩



/-- C1: in every run of the per-process snapshot insertion, any attempted
`pid_cookie` insert is strictly preceded in the kernel-operation trace by
the `proc_cache` insert of the same freshly generated cookie, and that
`proc_cache` entry exists in the final state; moreover if the `proc_cache`
insert fails, no `pid_cookie` insert is ever attempted — so no `pid_cookie`
entry can point at a missing `proc_cache` entry. -/
theorem snapshotProcess_no_dangling_cookie (env : Env) (s : ResolverState) (pid : Nat) :
    (∀ k c, KEvent.pidCookieSet k c ∈ newEvents s (snapshotProcess env s pid).2 →
      ∃ i j v, i < j
        ∧ (newEvents s (snapshotProcess env s pid).2).get? i
            = some (KEvent.procCacheSet c v)
        ∧ (newEvents s (snapshotProcess env s pid).2).get? j
            = some (KEvent.pidCookieSet k c)
        ∧ assocGet (snapshotProcess env s pid).2.procCache c = some v)
    ∧ (∀ c v, KEvent.procCacheSet c v ∈ newEvents s (snapshotProcess env s pid).2 →
      env.procCacheSetOk c v = false →
      ∀ k c2, ¬ KEvent.pidCookieSet k c2 ∈ newEvents s (snapshotProcess env s pid).2) := by
  simp only [snapshotProcess]
  repeat' split
  all_goals constructor
  all_goals simp only [newEvents, logEvent_trace, AddEntry_trace, List.append_assoc,
    List.singleton_append, List.cons_append, List.nil_append, drop_length_append]
  all_goals first
    | (intro k c hmem; exfalso; simp at hmem; done)
    | (intro c v hmem hok k c2 hmem2; exfalso; simp at hmem2; done)
    | (intro c v hmem hok k c2 hmem2; exfalso; simp at hmem
       obtain ⟨hc, hv⟩ := hmem; subst hc; subst hv; simp_all)
    | (intro k c hmem
       simp at hmem
       obtain ⟨hk, hc⟩ := hmem
       subst hk; subst hc
       refine ⟨2, 3, _, by omega, rfl, rfl, assocGet_set_self _ _ _⟩)

/-- C3: `Resolve(pid)` returns the cached entry with a completely unchanged
state (hence no kernel reads) on a userspace-cache hit; on a miss, a
successful kernel fallback returns exactly the entry constructed from the
kernel tables (`kernelTableConstruction`), memoizes it, and a second
`Resolve(pid)` is then answered from the cache with no state change. -/
theorem Resolve_cache_then_fallback (env : Env) (s : ResolverState) (pid : Nat) :
    (∀ e, assocGet s.entryCache pid = some e → Resolve env s pid = (some e, s))
    ∧ (assocGet s.entryCache pid = none →
      ∀ e, (Resolve env s pid).1 = some e →
        kernelTableConstruction env s pid = some e
        ∧ assocGet (Resolve env s pid).2.entryCache pid = some e
        ∧ Resolve env (Resolve env s pid).2 pid = (some e, (Resolve env s pid).2)) := by
  constructor
  · intro e he; simp [Resolve, he]
  · intro hmiss e hsome
    have hR : Resolve env s pid = resolve env s pid := by simp [Resolve, hmiss]
    rw [hR] at hsome ⊢
    revert hsome
    simp only [resolve, kernelTableConstruction]
    repeat' split
    all_goals intro hsome
    all_goals simp_all [AddEntry, logEvent, assocGet_set_self, Resolve]

/-- C4: for a pid missing from the userspace cache, `Resolve(pid)` returns
absent exactly when the kernel-table walk fails (`pid_cookie` miss,
`proc_cache` miss, deserialization failure, or the path resolver's
"not found" sentinel — the cases in which `kernelTableConstruction` is
`none`), and in that case the userspace cache is left unchanged. -/
theorem Resolve_negative_not_cached (env : Env) (s : ResolverState) (pid : Nat)
    (hmiss : assocGet s.entryCache pid = none) :
    ((Resolve env s pid).1 = none ↔ kernelTableConstruction env s pid = none)
    ∧ ((Resolve env s pid).1 = none →
        (Resolve env s pid).2.entryCache = s.entryCache) := by
  have hR : Resolve env s pid = resolve env s pid := by simp [Resolve, hmiss]
  rw [hR]
  simp only [resolve, kernelTableConstruction]
  repeat' split
  all_goals constructor
  all_goals simp_all [logEvent, AddEntry]

/-- C7: once the snapshot-only table is registered, the `inode_numlower`
table exists and the transient kprobe registers successfully, every run of
`Snapshot` — converged, exhausted after 5 attempts, or failed later —
appends exactly one kprobe registration and exactly one kprobe
deregistration to the trace, so the probe is never left active. -/
theorem Snapshot_probe_lifecycle (env : Env) (s : ResolverState)
    (hT : env.registerTableOk "inode_numlower" = true)
    (hE : env.tableExists "inode_numlower" = true)
    (hK : env.registerKprobeOk "getattr" = true) :
    ((Snapshot env s).2.trace).countP isUnregisterEvt
        = s.trace.countP isUnregisterEvt + 1
    ∧ ((Snapshot env s).2.trace).countP isRegisterEvt
        = s.trace.countP isRegisterEvt + 1 := by
  have hreg : registerTables env processSnapshotTables = none := by
    simp [registerTables, processSnapshotTables, hT]
  have hpr : registerProbes env s processSnapshotProbes
      = (none, logEvent s (KEvent.registerKprobe "getattr")) := by
    simp [registerProbes, processSnapshotProbes, hK]
  have hloopU := snapshotLoop_countP env isUnregisterEvt not_table_unreg
    (fun _ => rfl) 5 (logEvent s (KEvent.registerKprobe "getattr")) 0
  have hloopR := snapshotLoop_countP env isRegisterEvt not_table_reg
    (fun _ => rfl) 5 (logEvent s (KEvent.registerKprobe "getattr")) 0
  simp only [Snapshot, hreg, hE, if_true, hpr]
  constructor <;>
    simp [unregisterProbes, processSnapshotProbes, List.countP_append,
      List.countP_cons, hloopU, hloopR, isUnregisterEvt, isRegisterEvt]



/-- C2: a snapshot pass skips zero-length-exe processes without attempting
insertion; when enumeration succeeds a pass reports success exactly when
it performed no insertion (the `pid_cookie` table is unchanged); and the
retry loop of `Snapshot` returns success at the first successful pass
(after `j + 1` enumerations) while five consecutive failing passes make it
return the "unable to snapshot processes" error after exactly five
enumerations. -/
theorem snapshot_fixed_point_protocol (env : Env) (s : ResolverState) :
    (∀ (m : Bool) (proc : ProcInfo) (rest : List ProcInfo) (t : ResolverState),
      proc.Exe.length = 0 →
      snapshotProcs env t m (proc :: rest) = snapshotProcs env t m rest)
    ∧ (∀ k : Nat, (env.allProcesses k).isSome = true →
      ((snapshot env s k).1 = none ↔ (snapshot env s k).2.pidCookie = s.pidCookie))
    ∧ (env.registerTableOk "inode_numlower" = true →
       env.tableExists "inode_numlower" = true →
       env.registerKprobeOk "getattr" = true →
      ((∀ i, i < 5 →
          (snapshot env
            (iterPass env (logEvent s (KEvent.registerKprobe "getattr")) 0 i)
            (0 + i)).1 ≠ none) →
        (Snapshot env s).1 = some "unable to snapshot processes"
        ∧ ((Snapshot env s).2.trace).countP isEnumerateEvt
            = s.trace.countP isEnumerateEvt + 5)
      ∧ (∀ j, j < 5 →
        (∀ i, i < j →
          (snapshot env
            (iterPass env (logEvent s (KEvent.registerKprobe "getattr")) 0 i)
            (0 + i)).1 ≠ none) →
        (snapshot env
          (iterPass env (logEvent s (KEvent.registerKprobe "getattr")) 0 j)
          (0 + j)).1 = none →
        (Snapshot env s).1 = none
        ∧ ((Snapshot env s).2.trace).countP isEnumerateEvt
            = s.trace.countP isEnumerateEvt + (j + 1))) := by
  refine ⟨?_, ?_, ?_⟩
  · intro m proc rest t he
    simp only [snapshotProcs]
    rw [if_pos he]
  · intro k hk
    obtain ⟨procs, hp⟩ := Option.isSome_iff_exists.mp hk
    constructor
    · intro hnone
      simp only [snapshot, hp] at hnone ⊢
      cases hr : (snapshotProcs env (logEvent s (KEvent.enumerate k)) false procs).1 with
      | false =>
        simp only [hr, if_false, Bool.false_eq_true] at hnone ⊢
        have := snapshotProcs_false env procs (logEvent s (KEvent.enumerate k)) false hr
        simp only [logEvent_pidCookie] at this
        simpa using this
      | true => simp [hr] at hnone
    · intro hsame
      simp only [snapshot, hp] at hsame ⊢
      cases hr : (snapshotProcs env (logEvent s (KEvent.enumerate k)) false procs).1 with
      | false => simp [hr]
      | true =>
        exfalso
        have hlt := snapshotProcs_true env procs (logEvent s (KEvent.enumerate k)) hr
        simp only [logEvent_pidCookie] at hlt
        simp only [hr, if_true] at hsame
        rw [hsame] at hlt
        exact absurd hlt (Nat.lt_irrefl _)
  · intro hT hE hK
    have hreg : registerTables env processSnapshotTables = none := by
      simp [registerTables, processSnapshotTables, hT]
    have hpr : registerProbes env s processSnapshotProbes
        = (none, logEvent s (KEvent.registerKprobe "getattr")) := by
      simp [registerProbes, processSnapshotProbes, hK]
    constructor
    · intro hfail
      have hl := snapshotLoop_all_fail env 5
        (logEvent s (KEvent.registerKprobe "getattr")) 0 hfail
      simp only [Snapshot, hreg, hE, if_true, hpr, hl]
      refine ⟨trivial, ?_⟩
      have hcount := iterPass_countEnum env
        (logEvent s (KEvent.registerKprobe "getattr")) 0 5
      simp [unregisterProbes, processSnapshotProbes, List.countP_append,
        List.countP_cons, hcount, isEnumerateEvt]
    · intro j hj hfail hsucc
      have hl := snapshotLoop_first_success env 5
        (logEvent s (KEvent.registerKprobe "getattr")) 0 j hj hfail hsucc
      simp only [Snapshot, hreg, hE, if_true, hpr, hl]
      refine ⟨trivial, ?_⟩
      have hcount := iterPass_countEnum env
        (logEvent s (KEvent.registerKprobe "getattr")) 0 (j + 1)
      simp [unregisterProbes, processSnapshotProbes, List.countP_append,
        List.countP_cons, hcount, isEnumerateEvt]

theorem snapshotProcess_no_dangling_cookie_witness :
    (newEvents sW (snapshotProcess envW sW 5).2).get? 2
        = some (KEvent.procCacheSet (putUint32 42) [1])
    ∧ (newEvents sW (snapshotProcess envW sW 5).2).get? 3
        = some (KEvent.pidCookieSet (putUint32 5) (putUint32 42))
    ∧ assocGet (snapshotProcess envW sW 5).2.procCache (putUint32 42) = some [1] := by
  have _h := (snapshotProcess_no_dangling_cookie envW sW 5).1
    (putUint32 5) (putUint32 42) (by decide)
  exact ⟨by decide, by decide, by decide⟩

theorem snapshot_fixed_point_protocol_witness :
    ((Snapshot envC2 sW).1 = some "unable to snapshot processes"
      ∧ ((Snapshot envC2 sW).2.trace).countP isEnumerateEvt
          = sW.trace.countP isEnumerateEvt + 5)
    ∧ ((Snapshot envW sW).1 = none
      ∧ ((Snapshot envW sW).2.trace).countP isEnumerateEvt
          = sW.trace.countP isEnumerateEvt + (1 + 1))
    ∧ ((snapshot envW sW 0).1 = none ↔ (snapshot envW sW 0).2.pidCookie = sW.pidCookie)
    ∧ snapshotProcs envW sW false [{ Pid := 9, Exe := "" }]
        = snapshotProcs envW sW false [] := by
  refine ⟨?_, ?_, ?_, ?_⟩
  · exact ((snapshot_fixed_point_protocol envC2 sW).2.2 rfl rfl rfl).1 (by decide)
  · exact ((snapshot_fixed_point_protocol envW sW).2.2 rfl rfl rfl).2 1
      (by omega) (by decide) (by decide)
  · exact (snapshot_fixed_point_protocol envW sW).2.1 0 (by decide)
  · exact (snapshot_fixed_point_protocol envW sW).1 false { Pid := 9, Exe := "" } [] sW (by decide)

theorem Resolve_cache_then_fallback_witness :
    Resolve envW sHit 7 = (some { PathnameStr := "/x", Timestamp := 1 }, sHit)
    ∧ kernelTableConstruction envW sK 9
        = some { PathnameStr := "/bin/a", Timestamp := 111 }
    ∧ assocGet (Resolve envW sK 9).2.entryCache 9
        = some { PathnameStr := "/bin/a", Timestamp := 111 }
    ∧ Resolve envW (Resolve envW sK 9).2 9
        = (some { PathnameStr := "/bin/a", Timestamp := 111 }, (Resolve envW sK 9).2) := by
  have h1 := (Resolve_cache_then_fallback envW sHit 7).1
    { PathnameStr := "/x", Timestamp := 1 } (by decide)
  have h2 := (Resolve_cache_then_fallback envW sK 9).2 (by decide)
    { PathnameStr := "/bin/a", Timestamp := 111 } (by decide)
  exact ⟨h1, h2.1, h2.2.1, h2.2.2⟩

theorem Resolve_negative_not_cached_witness :
    (Resolve envW sK 10).1 = none
    ∧ (Resolve envW sK 10).2.entryCache = sK.entryCache := by
  have H := Resolve_negative_not_cached envW sK 10 (by decide)
  have hn : (Resolve envW sK 10).1 = none := H.1.mpr (by decide)
  exact ⟨hn, H.2 hn⟩

theorem snapshotProcess_idempotent_witness :
    snapshotProcess envW sK 9
      = (false, logEvent sK (KEvent.pidCookieGet (putUint32 9)))
    ∧ snapshotProcess envW (snapshotProcess envW sK 9).2 9
      = (false, logEvent (snapshotProcess envW sK 9).2
          (KEvent.pidCookieGet (putUint32 9))) :=
  snapshotProcess_idempotent envW sK 9 (putUint32 1) (by decide)

theorem snapshotProcess_provisional_entry_witness :
    assocGet (snapshotProcess envStatFail sW 5).2.entryCache 5
      = some { PathnameStr := "/bin/a", Timestamp := 0 }
    ∧ (snapshotProcess envStatFail sW 5).1 = false :=
  ⟨snapshotProcess_provisional_entry envStatFail sW 5 "/bin/a"
      (by decide) (by decide) (by decide) (by decide),
    by decide⟩

theorem Snapshot_probe_lifecycle_witness :
    ((Snapshot envW sW).2.trace).countP isUnregisterEvt
        = sW.trace.countP isUnregisterEvt + 1
    ∧ ((Snapshot envW sW).2.trace).countP isRegisterEvt
        = sW.trace.countP isRegisterEvt + 1 :=
  Snapshot_probe_lifecycle envW sW rfl rfl rfl

theorem DelEntry_frame_witness :
    assocGet (DelEntry sDel 5).entryCache 5 = none
    ∧ assocGet (DelEntry sDel 5).pidCookie (putUint32 5) = none
    ∧ (DelEntry sDel 5).procCache = sDel.procCache
    ∧ assocGet (DelEntry sDel 5).entryCache 6 = assocGet sDel.entryCache 6
    ∧ assocGet (DelEntry sDel 5).pidCookie (putUint32 6)
        = assocGet sDel.pidCookie (putUint32 6)
    ∧ (resolve envW (DelEntry sDel 5) 5).1 = none := by
  have H := DelEntry_frame sDel 5
  exact ⟨H.1, H.2.1, H.2.2.1, H.2.2.2.2.1 6 (by decide),
    H.2.2.2.2.2.1 6 (by decide) (by decide) (by decide), H.2.2.2.2.2.2 envW⟩

theorem snapshotProcess_mount_sync_tolerance_witness :
    snapshotProcess envNE sW 5
      = snapshotProcess
          { envNE with syncCache := fun q => if q = 5 then none else envNE.syncCache q }
          sW 5
    ∧ snapshotProcess envHard sW 5
        = (false, logEvent sW (KEvent.pidCookieGet (putUint32 5)))
    ∧ snapshotProcs envHard sW false [{ Pid := 5, Exe := "/bin/a" }]
        = snapshotProcs envHard
            (logEvent sW (KEvent.pidCookieGet (putUint32 (5 % 4294967296))))
            false [] := by
  refine ⟨?_, ?_, ?_⟩
  · exact snapshotProcess_mount_sync_tolerance.1 envNE sW 5
      { isNotExist := true } rfl rfl
  · exact snapshotProcess_mount_sync_tolerance.2.1 envHard sW 5
      { isNotExist := false } (by decide) rfl rfl
  · exact snapshotProcess_mount_sync_tolerance.2.2 envHard sW false
      { Pid := 5, Exe := "/bin/a" } [] { isNotExist := false }
      (by decide) (by decide) rfl rfl

theorem snapshotProcess_entryCache_frame_witness :
    ((snapshotProcess envNoCID sW 5).1 = false
      ∧ (snapshotProcess envNoCID sW 5).2.entryCache = sW.entryCache)
    ∧ (snapshotProcess envStatFail sW 5).2.entryCache
        = assocSet sW.entryCache 5 { PathnameStr := "/bin/a", Timestamp := 0 } := by
  refine ⟨?_, ?_⟩
  · exact (snapshotProcess_entryCache_frame envNoCID sW 5).1
      (Or.inr (Or.inr (Or.inl rfl)))
  · obtain ⟨path, hp, he⟩ :=
      (snapshotProcess_entryCache_frame envStatFail sW 5).2 (by decide)
    have hr : envStatFail.readlink (procExePath 5) = some "/bin/a" := by decide
    rw [hr] at hp
    rw [Option.some_inj.mp hp.symm] at he
    exact he

end Probe
